import Mathlib

/-!
Verification of the Goals4Arab backend (src/src/index.ts).

The TypeScript file contains two concatenated revisions of the server; all
definitions below follow the later revision (the one starting at the
"Works with Fastify v5" header), which is the revision the specification
describes: it is the one containing the date / tomorrow / upcoming endpoints
and the league_name field.

Modelling conventions for the shallow embedding of the dynamically typed
source:

* JavaScript values are modelled by the inductive JSValue.  null and
  undefined are collapsed into one constructor vNull: every use site in the
  source treats them identically (the nullish operator, truthiness tests and
  strict comparisons against string literals), so the collapse is faithful
  for this program.  Numbers are modelled as exact rationals plus separate
  NaN and signed-infinity constructors; Number(string) parses decimal
  (including fractional and exponent forms), hex, octal, binary and
  Infinity numerals exactly.  The rational model agrees with the engine's
  doubles on every numeral whose nearest double round-trips - in particular
  on every integer of magnitude below 2 to the 53 and every short decimal
  such as 2.5 - which covers all values the claims touch; double rounding
  of extreme numerals is outside the model.
* A thrown JavaScript exception is modelled by Except.error.  Functions that
  cannot throw are total.
* Date.now() / new Date() are modelled by an explicit current-time parameter
  in epoch milliseconds; the current UTC calendar day is its floor division
  by 86400000, exactly what toISOString's date part yields.
* The upstream HTTP layer (undici) is modelled by an oracle from the fetched
  resource (the date string, "inplay", or a match id) to a FetchOutcome.
  undici's request() rejects the promise only on network/connection errors,
  NOT on non-2xx status codes, and res.body.json() rejects exactly when the
  body is not valid JSON; FetchOutcome mirrors this: netErr models a rejected
  request(), reply st none models a reply whose body fails JSON parsing, and
  reply st (some v) models a reply with any status st and parsed body v.
-/

namespace G4A

inductive JSValue where
  | vNull
  | vBool (b : Bool)
  | vNum (n : Rat)
  | vNaN
  | vInf (pos : Bool)
  | vStr (s : String)
  | vArr (xs : List JSValue)
  | vObj (fields : List (String × JSValue))
deriving Repr

open JSValue

/-- JavaScript truthiness: null/undefined, false, 0, NaN and "" are falsy;
infinities and every array and object (even empty) are truthy. -/
def truthy : JSValue → Bool
  | vNull => false
  | vBool b => b
  | vNum n => n != 0
  | vNaN => false
  | vInf _ => true
  | vStr s => s != ""
  | vArr _ => true
  | vObj _ => true

/-- The nullish-coalescing operator a ?? b. -/
def jsNN (a b : JSValue) : JSValue :=
  match a with
  | vNull => b
  | v => v

/-- The logical-or operator a || b (value-returning, on truthiness). -/
def jsOr (a b : JSValue) : JSValue :=
  if truthy a then a else b

/-- Property access v?.k (and plain v.k at use sites where v is known to be
an object): undefined (here vNull) on primitives, on null/undefined and on a
missing key.  A JS object cannot hold a key twice, so first-match lookup is
exact. -/
def getOpt (v : JSValue) (k : String) : JSValue :=
  match v with
  | vObj fs =>
    match fs.find? (fun p => p.1 == k) with
    | some p => p.2
    | none => vNull
  | _ => vNull

/-- Strict equality v === (string literal t): true only for the same string. -/
def isStrVal (v : JSValue) (t : String) : Bool :=
  match v with
  | vStr u => u == t
  | _ => false

def isWs (c : Char) : Bool := c == ' ' || c == '\t' || c == '\n' || c == '\r'

def digitVal (c : Char) : Option Nat :=
  if c.isDigit then some (c.toNat - 48) else none

/-- Value of a non-empty all-digit character list; none otherwise. -/
def parseDigits (cs : List Char) : Option Nat :=
  match cs with
  | [] => none
  | _ => cs.foldl (fun acc c => acc.bind (fun a => (digitVal c).map (fun d => a * 10 + d))) (some 0)

/-- Value of a digit list read in base 10, 0 on the empty list; callers
guarantee all characters are digits. -/
def digitsValue (cs : List Char) : Nat :=
  cs.foldl (fun a c => a * 10 + (c.toNat - 48)) 0

def hexDigitVal (c : Char) : Option Nat :=
  if c.isDigit then some (c.toNat - 48)
  else if 'a' ≤ c ∧ c ≤ 'f' then some (c.toNat - 87)
  else if 'A' ≤ c ∧ c ≤ 'F' then some (c.toNat - 55)
  else none

/-- Value of a non-empty digit list in the given radix (2, 8 or 16);
none when empty or when a character is not a digit of that radix. -/
def radixDigits (radix : Nat) (cs : List Char) : Option Nat :=
  match cs with
  | [] => none
  | _ => cs.foldl
      (fun acc c => acc.bind fun a =>
        (hexDigitVal c).bind fun d => if d < radix then some (a * radix + d) else none)
      (some 0)

/-- A JavaScript number: NaN, a signed infinity, or a finite value
(modelled as an exact rational; see the header comment for the domain of
agreement with IEEE doubles). -/
inductive JsNum where
  | nan
  | inf (pos : Bool)
  | finite (x : Rat)
deriving Repr

/-- The mantissa of an unsigned decimal numeral: digits, optionally with a
dot - "25", "2.5", "1.", ".5" - read as (all digits as one integer, number
of fraction digits); none when empty or malformed. -/
def parseUnsignedDec (cs : List Char) : Option (Nat × Nat) :=
  let ip := cs.takeWhile Char.isDigit
  let rest := cs.drop ip.length
  match rest with
  | [] => if ip.isEmpty then none else some (digitsValue ip, 0)
  | '.' :: frac =>
    if frac.all Char.isDigit then
      if ip.isEmpty && frac.isEmpty then none
      else some (digitsValue ip * 10 ^ frac.length + digitsValue frac, frac.length)
    else none
  | _ => none

/-- An optionally signed decimal exponent. -/
def parseExp (cs : List Char) : Option Int :=
  match cs with
  | '-' :: rest => (parseDigits rest).map (fun n => -(n : Int))
  | '+' :: rest => (parseDigits rest).map (fun n => (n : Int))
  | _ => (parseDigits cs).map (fun n => (n : Int))

/-- The exact rational m * 10 ^ (k - f), where m is the mantissa read as an
integer, f its number of fraction digits and k the exponent. -/
def decValue (m : Nat) (f : Nat) (k : Int) : Rat :=
  let e := k - (f : Int)
  if 0 ≤ e then mkRat ((m : Int) * (10 : Int) ^ e.toNat) 1
  else mkRat (m : Int) ((10 : Nat) ^ (-e).toNat)

/-- An unsigned decimal literal, optionally with an e/E exponent. -/
def parseDecLit (cs : List Char) : Option Rat :=
  let p := cs.span (fun c => c != 'e' && c != 'E')
  match p.2 with
  | [] => (parseUnsignedDec p.1).map (fun md => decValue md.1 md.2 0)
  | _ :: ex =>
    match parseUnsignedDec p.1, parseExp ex with
    | some md, some k => some (decValue md.1 md.2 k)
    | _, _ => none

/-- A hex, octal or binary integer literal (0x/0X, 0o/0O, 0b/0B); these
carry no sign in the StringNumericLiteral grammar. -/
def parseRadix (cs : List Char) : Option Rat :=
  match cs with
  | '0' :: c :: rest =>
    if c = 'x' ∨ c = 'X' then (radixDigits 16 rest).map (fun n => mkRat (n : Int) 1)
    else if c = 'o' ∨ c = 'O' then (radixDigits 8 rest).map (fun n => mkRat (n : Int) 1)
    else if c = 'b' ∨ c = 'B' then (radixDigits 2 rest).map (fun n => mkRat (n : Int) 1)
    else none
  | _ => none

/-- Model of JavaScript Number(string), the StringNumericLiteral grammar:
whitespace is trimmed, the empty string converts to 0, Infinity forms to
the infinities, unsigned hex/octal/binary literals and optionally signed
decimal literals (with fraction and exponent) to their exact value, and
anything else to NaN. -/
def strToNum (s : String) : JsNum :=
  let cs := ((s.toList.dropWhile isWs).reverse.dropWhile isWs).reverse
  match cs with
  | [] => .finite 0
  | _ =>
    let t := String.mk cs
    if t = "Infinity" ∨ t = "+Infinity" then .inf true
    else if t = "-Infinity" then .inf false
    else
      match parseRadix cs with
      | some v => .finite v
      | none =>
        match cs with
        | '-' :: rest =>
          match parseDecLit rest with
          | some v => .finite (-v)
          | none => .nan
        | '+' :: rest =>
          match parseDecLit rest with
          | some v => .finite v
          | none => .nan
        | _ =>
          match parseDecLit cs with
          | some v => .finite v
          | none => .nan

/-- Model of JavaScript Number(v).  Number(null) = 0, booleans convert to
0/1, an empty array to 0, a singleton array to the conversion of its
element's primitive form (one level, which covers every value this program
can meet), and other arrays/objects to NaN. -/
def toNumber : JSValue → JsNum
  | vNull => .finite 0
  | vBool b => .finite (if b then 1 else 0)
  | vNum n => .finite n
  | vNaN => .nan
  | vInf b => .inf b
  | vStr s => strToNum s
  | vArr [] => .finite 0
  | vArr [vNum n] => .finite n
  | vArr [vNull] => .finite 0
  | vArr [vStr s] => strToNum s
  | vArr _ => .nan
  | vObj _ => .nan

/-- The JSValue a Number() result is stored back as. -/
def numToVal : JsNum → JSValue
  | .nan => vNaN
  | .inf b => vInf b
  | .finite x => vNum x

/-- Days from 1970-01-01 of a civil date (Howard Hinnant's algorithm,
the arithmetic underlying ECMAScript Date's proleptic Gregorian calendar). -/
def daysFromCivil (y m d : Int) : Int :=
  let y' := if m ≤ 2 then y - 1 else y
  let era := Int.ediv y' 400
  let yoe := y' - era * 400
  let mp := Int.emod (m + 9) 12
  let doy := Int.ediv (153 * mp + 2) 5 + d - 1
  let doe := yoe * 365 + Int.ediv yoe 4 - Int.ediv yoe 100 + doy
  era * 146097 + doe - 719468

/-- Civil date (y, m, d) of a day count from 1970-01-01 (inverse of
daysFromCivil). -/
def civilFromDays (z0 : Int) : Int × Int × Int :=
  let z := z0 + 719468
  let era := Int.ediv z 146097
  let doe := z - era * 146097
  let yoe := Int.ediv (doe - Int.ediv doe 1460 + Int.ediv doe 36524 - Int.ediv doe 146096) 365
  let y := yoe + era * 400
  let doy := doe - (365 * yoe + Int.ediv yoe 4 - Int.ediv yoe 100)
  let mp := Int.ediv (5 * doy + 2) 153
  let d := doy - Int.ediv (153 * mp + 2) 5 + 1
  let m := mp + (if mp < 10 then 3 else -9)
  (if m ≤ 2 then y + 1 else y, m, d)

def pad2 (n : Int) : String :=
  if n < 10 then "0" ++ toString n else toString n

/-- The date part of Date.prototype.toISOString (YYYY-MM-DD) for a given
day count from the epoch. -/
def isoDate (day : Int) : String :=
  match civilFromDays day with
  | (y, m, d) => toString y ++ "-" ++ pad2 m ++ "-" ++ pad2 d

/-- Model of new Date(s).getTime() for the strings this program builds:
exactly the shape "YYYY-MM-DDTHH:MM:SSZ" parses (to epoch milliseconds,
with basic range validation as ECMAScript performs); anything else is an
invalid date (none = NaN). -/
def parseISO (s : String) : Option Int :=
  match s.toList with
  | [y1, y2, y3, y4, '-', m1, m2, '-', d1, d2, 'T', h1, h2, ':', n1, n2, ':', s1, s2, 'Z'] =>
    match parseDigits [y1, y2, y3, y4], parseDigits [m1, m2], parseDigits [d1, d2],
          parseDigits [h1, h2], parseDigits [n1, n2], parseDigits [s1, s2] with
    | some y, some mo, some da, some h, some mi, some se =>
      if 1 ≤ mo ∧ mo ≤ 12 ∧ 1 ≤ da ∧ da ≤ 31 ∧ h ≤ 23 ∧ mi ≤ 59 ∧ se ≤ 59 then
        some ((daysFromCivil y mo da * 86400 + h * 3600 + mi * 60 + se) * 1000)
      else none
    | _, _, _, _, _, _ => none
  | _ => none

/-- Model of new Date(v).getTime() as used in the sort comparator, where v
is a kickoff value already passed through (... || 0): a number is taken as
epoch milliseconds (TimeClip truncates a fractional value toward zero;
only the integer 0 actually reaches this case) and a string is parsed as
an ISO timestamp; other values give NaN (none). -/
def dateMillis : JSValue → Option Int
  | vNum n => some (n.num / (n.den : Int))
  | vStr s => parseISO s
  | _ => none

/-! ## TTL cache (source: type CacheEntry, const cache, put, get) -/

structure CacheEntry where
  exp : Int
  data : JSValue
deriving Repr

/-- The in-memory cache object, a mapping from string key to entry; a JS
object holds at most one value per key, which the function type captures. -/
def Cache := String → Option CacheEntry

def emptyCache : Cache := fun _ => none

/-- put(k, data, ttlMs): cache[k] = (exp: Date.now() + ttlMs, data), with the
current time passed explicitly. -/
def put (c : Cache) (now : Int) (k : String) (data : JSValue) (ttlMs : Int) : Cache :=
  fun k' => if k' = k then some ⟨now + ttlMs, data⟩ else c k'

/-- get(k): the entry's data if the entry exists and its expiry is strictly
later than now, else null.  (The entry record itself is an object, hence
always truthy; only its presence matters for the && test.) -/
def get (c : Cache) (now : Int) (k : String) : JSValue :=
  match c k with
  | some v => if v.exp > now then v.data else vNull
  | none => vNull

/-! ## Score extractor (source: currentScore) -/

/-- Test s?.description === 'CURRENT'. -/
def isCur (s : JSValue) : Bool := isStrVal (getOpt s "description") "CURRENT"

/-- Test s?.score?.participant === loc. -/
def isPartAt (s : JSValue) (loc : String) : Bool :=
  isStrVal (getOpt (getOpt s "score") "participant") loc

/-- Number(s.score.goals ?? 0) stored back as a JS value (a number, an
infinity, or NaN when the goals value is not numeric). -/
def goalsNum (s : JSValue) : JSValue :=
  numToVal (toNumber (jsNN (getOpt (getOpt s "score") "goals") (vNum 0)))

/-- The for-loop of currentScore, threading the two accumulators. -/
def scoreLoop : List JSValue → JSValue → JSValue → JSValue × JSValue
  | [], h, a => (h, a)
  | s :: rest, h, a =>
    if isCur s then
      scoreLoop rest (if isPartAt s "home" then goalsNum s else h)
        (if isPartAt s "away" then goalsNum s else a)
    else
      scoreLoop rest h a

/-- currentScore(scores): scan the array (if it is one), letting the last
CURRENT-tagged record per side overwrite earlier ones; both sides start
at 0. -/
def currentScore (scores : JSValue) : JSValue × JSValue :=
  match scores with
  | vArr xs => scoreLoop xs (vNum 0) (vNum 0)
  | _ => (vNum 0, vNum 0)

/-! ## Fixture normalizer (source: mapFixture) -/

/-- parts.find of the first participant whose meta.location is loc, with JS
find returning undefined (vNull) when nothing matches. -/
def findPart (xs : List JSValue) (loc : String) : JSValue :=
  match xs.find? (fun p => isStrVal (getOpt (getOpt p "meta") "location") loc) with
  | some p => p
  | none => vNull

/-- The team sub-object built from a participant record. -/
def teamObj (p : JSValue) : JSValue :=
  vObj [("id", getOpt p "id"), ("name", getOpt p "name"),
        ("code", getOpt p "short_code"), ("logo", getOpt p "image_path")]

/-- Replace the first occurrence of a space by 'T' (String.prototype.replace
with a string pattern replaces only the first match). -/
def replaceFirstSpace (cs : List Char) : List Char :=
  match cs with
  | [] => []
  | c :: rest => if c = ' ' then 'T' :: rest else c :: replaceFirstSpace rest

/-- Model of new Date(s).toLocaleString('ar', hour/minute, Asia/Bahrain):
an uninterpreted total formatting function.  It cannot throw (invalid dates
format to an "Invalid Date" text), and no claim depends on its output, so
the rendered text is modelled as the input timestamp itself. -/
def bahrainFormat (s : String) : String := s

/-- mapFixture(fx).  Except.error models a thrown TypeError: calling .find
on a truthy non-array participants value, or .replace on a truthy
non-string starting_at value, throws; everything else is defensive. -/
def mapFixture (fx : JSValue) : Except Unit JSValue :=
  match jsOr (getOpt fx "participants") (vArr []) with
  | vArr parts =>
    let home := jsOr (findPart parts "home") (vObj [])
    let away := jsOr (findPart parts "away") (vObj [])
    let sc := currentScore (jsOr (getOpt fx "scores") (vArr []))
    let league_name := jsNN (getOpt (getOpt fx "league") "name") vNull
    let sa := getOpt fx "starting_at"
    if truthy sa then
      match sa with
      | vStr s =>
        let k := String.mk (replaceFirstSpace s.toList) ++ "Z"
        .ok (vObj [("id", getOpt fx "id"), ("league_id", getOpt fx "league_id"),
          ("league_name", league_name), ("state_id", getOpt fx "state_id"),
          ("kickoff_utc", vStr k), ("kickoff_bahrain", vStr (bahrainFormat k)),
          ("home", teamObj home), ("away", teamObj away),
          ("score_home", sc.1), ("score_away", sc.2)])
      | _ => .error ()
    else
      .ok (vObj [("id", getOpt fx "id"), ("league_id", getOpt fx "league_id"),
        ("league_name", league_name), ("state_id", getOpt fx "state_id"),
        ("kickoff_utc", vNull), ("kickoff_bahrain", vNull),
        ("home", teamObj home), ("away", teamObj away),
        ("score_home", sc.1), ("score_away", sc.2)])
  | _ => .error ()

/-! ## Kickoff orderer (source: sortByKickoff) -/

/-- The comparator key: new Date(a?.kickoff_utc || 0).getTime().
A null/missing kickoff is replaced by 0 before the Date conversion, so its
key is epoch millisecond 0; none is NaN. -/
def kickKey (v : JSValue) : Option Int :=
  dateMillis (jsOr (getOpt v "kickoff_utc") (vNum 0))

/-- Strict comparator order: the comparator keyA - keyB is negative.  Per
ECMAScript, a NaN comparator result is treated as 0 (neither before nor
after), hence false when either key is NaN. -/
def kickLt (a b : JSValue) : Bool :=
  match kickKey a, kickKey b with
  | some x, some y => x < y
  | _, _ => false

/-- Stable insertion of x into a sorted list: x goes in front of the first
element not strictly below it. -/
def insertK (x : JSValue) : List JSValue → List JSValue
  | [] => [x]
  | y :: ys => if kickLt y x then y :: insertK x ys else x :: y :: ys

/-- sortByKickoff(list).  ECMAScript requires Array.prototype.sort to be
stable, and for a consistent comparator the stable-sorted permutation is
unique, so this stable insertion sort computes exactly the array the source
returns (for inconsistent NaN keys the engine result is unspecified and the
model fixes one). -/
def sortByKickoff : List JSValue → List JSValue
  | [] => []
  | x :: xs => insertK x (sortByKickoff xs)

/-! ## Upstream fetch model and the per-request pipeline shared by the
date-indexed handlers (const res = await request(url); const raw = await
res.body.json(); const fixtures = (raw?.data ?? []).map(mapFixture)) -/

/-- Outcome of one upstream fetch.  netErr: request() rejected (network /
connection failure).  reply st none: an HTTP reply whose body is not valid
JSON, so res.body.json() rejected.  reply st (some raw): an HTTP reply with
status st (ANY status - undici does not reject on non-2xx) whose body parsed
to raw.  The handlers never read the status. -/
inductive FetchOutcome where
  | netErr
  | reply (status : Int) (body : Option JSValue)

/-- await request(url) / await res.body.json(): the parsed body, or a thrown
error. -/
def fetchJson : FetchOutcome → Except Unit JSValue
  | .netErr => .error ()
  | .reply _ none => .error ()
  | .reply _ (some raw) => .ok raw

/-- The shared pipeline after a fetch: (raw?.data ?? []).map(mapFixture).
Calling .map on a non-array (a present, non-nullish, non-array data field)
throws, and a throw of mapFixture on any element aborts the whole map. -/
def dayResult (o : FetchOutcome) : Except Unit (List JSValue) := do
  let raw ← fetchJson o
  match jsNN (getOpt raw "data") (vArr []) with
  | vArr xs => xs.mapM mapFixture
  | _ => .error ()

/-- Result of running one handler: the value returned to the framework (ok)
or a thrown exception that the framework turns into an error response
(error), the cache after the run and the list of upstream resources fetched,
in fetch order. -/
structure HandlerResult where
  response : Except Unit JSValue
  cache : Cache
  fetched : List String

/-- A DailySchedule body: a date_utc / fixtures object literal. -/
def dayEntry (d : String) (fs : List JSValue) : JSValue :=
  vObj [("date_utc", vStr d), ("fixtures", vArr fs)]

/-! ## Endpoint handlers.  Each takes the upstream oracle, the cache and the
current time (epoch ms); route parameters are further arguments. -/

/-- The shared handler shape of all six cached endpoints (the source
repeats it verbatim in each handler): look the key up in the cache; on a
truthy hit return the cached value with no fetch; on a miss evaluate the
request body val (a thrown error failing the request and leaving the cache
untouched), store a successful value under key with the given TTL and
return it.  fetched lists the upstream resources the body fetched, in
order. -/
def fetchAndCache (key : String) (ttl : Int) (fetched : List String)
    (val : Except Unit JSValue) (c : Cache) (now : Int) : HandlerResult :=
  if truthy (get c now key) then ⟨.ok (get c now key), c, []⟩
  else
    match val with
    | .error _ => ⟨.error (), c, fetched⟩
    | .ok v => ⟨.ok v, put c now key v ttl, fetched⟩

def todayKey : String := "fixtures:today:simple"

/-- GET /api/fixtures/today: today's UTC date, fetched, normalized, sorted,
cached 60 s under a constant key. -/
def todayHandler (up : String → FetchOutcome) (c : Cache) (now : Int) : HandlerResult :=
  let todayUTC := isoDate (Int.ediv now 86400000)
  fetchAndCache todayKey 60000 [todayUTC]
    ((dayResult (up todayUTC)).map (fun fixtures => dayEntry todayUTC (sortByKickoff fixtures)))
    c now

def liveKey : String := "live:simple"

/-- GET /api/live: the in-play listing, normalized, sorted, wrapped in a
count / fixtures object, cached 5 s under a constant key. -/
def liveHandler (up : String → FetchOutcome) (c : Cache) (now : Int) : HandlerResult :=
  fetchAndCache liveKey 5000 ["inplay"]
    ((dayResult (up "inplay")).map (fun fixtures =>
      vObj [("count", vNum (sortByKickoff fixtures).length),
            ("fixtures", vArr (sortByKickoff fixtures))]))
    c now

def dateKey (date : String) : String := "fixtures:date:" ++ date

/-- GET /api/fixtures/date/:date.  The raw path parameter is used verbatim
in the cache key and in the upstream URL; there is no format validation. -/
def dateHandler (up : String → FetchOutcome) (c : Cache) (now : Int) (date : String) :
    HandlerResult :=
  fetchAndCache (dateKey date) 60000 [date]
    ((dayResult (up date)).map (fun fixtures => dayEntry date (sortByKickoff fixtures)))
    c now

def tomorrowKey : String := "fixtures:tomorrow"

/-- GET /api/fixtures/tomorrow: today's UTC day plus one, cached 60 s under
a constant key. -/
def tomorrowHandler (up : String → FetchOutcome) (c : Cache) (now : Int) : HandlerResult :=
  let date := isoDate (Int.ediv now 86400000 + 1)
  fetchAndCache tomorrowKey 60000 [date]
    ((dayResult (up date)).map (fun fixtures => dayEntry date (sortByKickoff fixtures)))
    c now

/-- Math.max(1, Math.min(14, Number(req?.query?.days ?? 7))), with the
ECMAScript min/max semantics spelled out per case: NaN propagates (none),
positive infinity is brought to 14 by the min, negative infinity to 1 by
the max, and a finite value is clamped into [1, 14].  The result is NaN or
a finite rational in [1, 14]; an infinity can never survive the clamp. -/
def clampDays (q : JSValue) : Option Rat :=
  match toNumber (jsNN q (vNum 7)) with
  | .nan => none
  | .inf true => some 14
  | .inf false => some 1
  | .finite x => some (max 1 (min 14 x))

/-- Number of iterations of the for loop with guard i below days: zero when
days is NaN (every comparison with NaN is false), and otherwise the number
of naturals strictly below days, which is its ceiling clipped at zero. -/
def daysToNat : Option Rat → Nat
  | none => 0
  | some x => x.ceil.toNat

/-- The days value as embedded in the response object. -/
def daysJS : Option Rat → JSValue
  | none => vNaN
  | some x => vNum x

/-- Count and remove the factors p of n (fuel-driven; fuel n suffices). -/
def stripFactor (p : Nat) : Nat → Nat → Nat × Nat
  | 0, n => (0, n)
  | fuel + 1, n =>
    if n % p = 0 ∧ 0 < n then
      let r := stripFactor p fuel (n / p)
      (r.1 + 1, r.2)
    else (0, n)

def padZeros (s : String) (len : Nat) : String :=
  if s.length < len then String.mk (List.replicate (len - s.length) '0') ++ s else s

/-- ECMAScript String(n) for the clamped days values this program
interpolates into the upcoming cache key: an integer prints as its decimal
numeral, and a non-integer value - whose reduced denominator divides a
power of 10, as every finite result of Number(string) does - prints as its
exact finite decimal expansion, which for such values in [1, 14] is the
engine's shortest round-trip form.  Values outside that fragment cannot
arise here and fall back to a fraction form. -/
def ratToJsString (x : Rat) : String :=
  if x.den = 1 then toString x.num
  else
    let s2 := stripFactor 2 x.den x.den
    let s5 := stripFactor 5 s2.2 s2.2
    if s5.2 = 1 then
      let k := max s2.1 s5.1
      let scaled := (x.num.natAbs * 10 ^ k) / x.den
      let digits := padZeros (toString scaled) (k + 1)
      let cut := digits.length - k
      (if x.num < 0 then "-" else "") ++ (digits.take cut ++ "." ++ digits.drop cut)
    else toString x.num ++ "/" ++ toString x.den

/-- String interpolation of the days number into the cache key
(String(NaN) is "NaN"). -/
def daysStr : Option Rat → String
  | none => "NaN"
  | some x => ratToJsString x

/-- The per-day loop of the upcoming handler: i is the current day offset
from today t (in epoch days; the source computes Date.UTC of today's civil
date plus the offset, which is exactly epoch-day addition), n the number of
remaining iterations.  Returns the accumulated schedule entries - pushed in
chronological order, a day with an empty fixture list pushing nothing - or
the first thrown error, which aborts the loop; paired with the dates fetched
in order up to that point. -/
def upcomingLoop (up : String → FetchOutcome) (t : Int) (i : Nat) :
    Nat → Except Unit (List JSValue) × List String
  | 0 => (.ok [], [])
  | n + 1 =>
    match dayResult (up (isoDate (t + i))) with
    | .error _ => (.error (), [isoDate (t + i)])
    | .ok fixtures =>
      let rest := upcomingLoop up t (i + 1) n
      (rest.1.map (fun entries =>
        if fixtures.isEmpty then entries
        else dayEntry (isoDate (t + i)) (sortByKickoff fixtures) :: entries),
       isoDate (t + i) :: rest.2)

/-- GET /api/fixtures/upcoming?days=n: the clamped day count is interpolated
into the cache key, and the response carries it with the schedule. -/
def upcomingHandler (up : String → FetchOutcome) (c : Cache) (now : Int) (q : JSValue) :
    HandlerResult :=
  let days := clampDays q
  let lr := upcomingLoop up (Int.ediv now 86400000) 0 (daysToNat days)
  fetchAndCache ("fixtures:upcoming:" ++ daysStr days) 60000 lr.2
    (lr.1.map (fun entries => vObj [("days", daysJS days), ("schedule", vArr entries)]))
    c now

def matchKey (id : String) : String := "match:" ++ id

/-- GET /api/matches/:id: caches (3 s) and returns the raw upstream payload,
with no normalization. -/
def matchHandler (up : String → FetchOutcome) (c : Cache) (now : Int) (id : String) :
    HandlerResult :=
  fetchAndCache (matchKey id) 3000 [id] (fetchJson (up id)) c now

/-! ## Specification-side definitions.  These follow the specification's
words (not the source) and are compared with the source-derived functions
in the claim theorems. -/

/-- A CURRENT-tagged record for the given side, the records the spec says
the extractor considers. -/
def isCurSide (loc : String) (s : JSValue) : Bool := isCur s && isPartAt s loc

/-- Specification reading of the score policy: among the records tagged
CURRENT for the given side, the LAST one observed in scan order wins;
the given default is returned when there is none. -/
def lastSideGoal (loc : String) (xs : List JSValue) (dflt : JSValue) : JSValue :=
  match (xs.filter (isCurSide loc)).getLast? with
  | some s => goalsNum s
  | none => dflt

/-- Entry a day offset j contributes to the upcoming schedule under the
specification's words: its sorted fixture list when nonempty, nothing when
the day has zero fixtures. -/
def specEntry (up : String → FetchOutcome) (t : Int) (j : Nat) : Option JSValue :=
  match dayResult (up (isoDate (t + (j : Int)))) with
  | .ok fs => if fs.isEmpty then none else some (dayEntry (isoDate (t + (j : Int))) (sortByKickoff fs))
  | .error _ => none

/-- Specification reading of the upcoming schedule: one entry per
consecutive day offset below days with a nonempty (sorted) fixture list;
empty days are omitted; order is chronological. -/
def specSchedule (up : String → FetchOutcome) (t : Int) (days : Nat) : List JSValue :=
  (List.range' 0 days).filterMap (specEntry up t)


/-! ## Concrete inputs used by the claim theorems -/

/-- Well-shapedness of a raw fixture under which mapFixture cannot throw:
a truthy participants field must be an array and a truthy starting_at field
must be a string (absent or falsy fields are always safe). -/
def goodFixture (fx : JSValue) : Bool :=
  (match jsOr (getOpt fx "participants") (vArr []) with
   | vArr _ => true
   | _ => false) &&
  (match getOpt fx "starting_at" with
   | vStr _ => true
   | v => !truthy v)

/-- An upstream oracle that replies 200 with a body whose data field is
null for every resource (a successful fetch of zero fixtures). -/
def upOkEmpty : String → FetchOutcome :=
  fun _ => .reply 200 (some (vObj [("data", vNull)]))

/-- An upstream oracle with one fixture on 1970-01-02 and zero fixtures on
every other day. -/
def upOneDay : String → FetchOutcome := fun d =>
  if d = "1970-01-02" then .reply 200 (some (vObj [("data", vArr [vObj [("id", vNum 1)]])]))
  else .reply 200 (some (vObj [("data", vNull)]))

/-- An upstream oracle that replies HTTP 500 with a parseable JSON error
body carrying no data field, for every resource. -/
def err500 : String → FetchOutcome :=
  fun _ => .reply 500 (some (vObj [("message", vStr "Internal Server Error")]))

/-- The score array of the specification's own extraction example. -/
def specExampleScores : JSValue := vArr [
  vObj [("description", vStr "1ST_HALF")],
  vObj [("description", vStr "CURRENT"),
        ("score", vObj [("participant", vStr "home"), ("goals", vNum 2)])],
  vObj [("description", vStr "CURRENT"),
        ("score", vObj [("participant", vStr "away"), ("goals", vNum 1)])]]

/-- A score array whose single CURRENT home record carries the non-numeric
goals string "abc". -/
def abcScores : JSValue := vArr [
  vObj [("description", vStr "CURRENT"),
        ("score", vObj [("participant", vStr "home"), ("goals", vStr "abc")])]]

/-- Canonical fixtures for the ordering example and counterexample. -/
def fx18 : JSValue := vObj [("kickoff_utc", vStr "2025-01-01T18:00:00Z")]

def fx12 : JSValue := vObj [("kickoff_utc", vStr "2025-01-01T12:00:00Z")]

def fxNullKick : JSValue := vObj [("kickoff_utc", vNull)]

def fx1969 : JSValue := vObj [("kickoff_utc", vStr "1969-12-31T00:00:00Z")]

/-! ## Helper lemmas -/

theorem get_put_self (c : Cache) (t0 t ttl : Int) (k : String) (v : JSValue) :
    get (put c t0 k v ttl) t k = if t0 + ttl > t then v else vNull := by
  unfold G4A.get G4A.put
  simp

theorem get_put_other (c : Cache) (t0 t ttl : Int) (k k' : String) (v : JSValue)
    (h : k' ≠ k) : get (put c t0 k v ttl) t k' = get c t k' := by
  unfold G4A.get G4A.put
  simp [h]

theorem lastSideGoal_cons (loc : String) (s : JSValue) (rest : List JSValue) (dflt : JSValue) :
    lastSideGoal loc (s :: rest) dflt =
      if isCurSide loc s then lastSideGoal loc rest (goalsNum s) else lastSideGoal loc rest dflt := by
  unfold lastSideGoal
  rw [List.filter_cons]
  by_cases h : isCurSide loc s
  · simp only [h, if_true]
    rw [List.getLast?_cons]
    cases hl : (rest.filter (isCurSide loc)).getLast? with
    | none => simp
    | some t => simp
  · simp [h]

theorem scoreLoop_eq_lastSideGoal (xs : List JSValue) :
    ∀ h a, scoreLoop xs h a = (lastSideGoal "home" xs h, lastSideGoal "away" xs a) := by
  induction xs with
  | nil => intro h a; rfl
  | cons s rest ih =>
    intro h a
    rw [lastSideGoal_cons, lastSideGoal_cons]
    unfold scoreLoop
    by_cases hc : isCur s
    · simp only [hc, if_true, ih]
      unfold isCurSide
      by_cases hh : isPartAt s "home" <;> by_cases ha : isPartAt s "away" <;>
        simp [hc, hh, ha]
    · simp [hc, ih, isCurSide]

/-- The comparator key with NaN read as 0; used only under the validity
hypothesis that no key is NaN, where it is the exact key. -/
def kickKeyD (v : JSValue) : Int := (kickKey v).getD 0

theorem kickLt_eq_keyD (a b : JSValue) (ha : (kickKey a).isSome = true)
    (hb : (kickKey b).isSome = true) : kickLt a b = decide (kickKeyD a < kickKeyD b) := by
  unfold kickLt kickKeyD
  cases hka : kickKey a with
  | none => rw [hka] at ha; simp at ha
  | some x =>
    cases hkb : kickKey b with
    | none => rw [hkb] at hb; simp at hb
    | some y => simp

theorem mem_insertK (z x : JSValue) (l : List JSValue) :
    z ∈ insertK x l ↔ z = x ∨ z ∈ l := by
  induction l with
  | nil => simp [insertK]
  | cons y ys ih =>
    unfold insertK
    by_cases h : kickLt y x = true
    · rw [if_pos h]
      simp only [List.mem_cons, ih]
      tauto
    · rw [if_neg h]
      simp only [List.mem_cons]

theorem insertK_perm (x : JSValue) (l : List JSValue) :
    (insertK x l).Perm (x :: l) := by
  induction l with
  | nil => simp [insertK]
  | cons y ys ih =>
    unfold insertK
    by_cases h : kickLt y x = true
    · rw [if_pos h]
      exact (ih.cons y).trans (List.Perm.swap x y ys)
    · rw [if_neg h]

theorem sortByKickoff_perm (l : List JSValue) : (sortByKickoff l).Perm l := by
  induction l with
  | nil => rfl
  | cons x xs ih =>
    unfold sortByKickoff
    exact (insertK_perm x (sortByKickoff xs)).trans (ih.cons x)

theorem pairwise_insertK (x : JSValue) (l : List JSValue)
    (hx : (kickKey x).isSome = true) (hl : ∀ y ∈ l, (kickKey y).isSome = true)
    (hp : l.Pairwise (fun a b => kickKeyD a ≤ kickKeyD b)) :
    (insertK x l).Pairwise (fun a b => kickKeyD a ≤ kickKeyD b) := by
  induction l with
  | nil => simp [insertK]
  | cons y ys ih =>
    have hy : (kickKey y).isSome = true := hl y (List.mem_cons_self y ys)
    rw [List.pairwise_cons] at hp
    unfold insertK
    by_cases h : kickLt y x = true
    · rw [if_pos h]
      rw [kickLt_eq_keyD y x hy hx] at h
      have hyx : kickKeyD y < kickKeyD x := of_decide_eq_true h
      rw [List.pairwise_cons]
      refine ⟨?_, ih (fun z hz => hl z (List.mem_cons_of_mem _ hz)) hp.2⟩
      intro z hz
      rcases (mem_insertK z x ys).1 hz with rfl | hzy
      · exact le_of_lt hyx
      · exact hp.1 z hzy
    · rw [if_neg h]
      rw [kickLt_eq_keyD y x hy hx] at h
      have hxy : kickKeyD x ≤ kickKeyD y := le_of_not_lt (fun hlt => h (decide_eq_true hlt))
      rw [List.pairwise_cons]
      refine ⟨?_, List.pairwise_cons.2 hp⟩
      intro z hz
      rcases List.mem_cons.1 hz with rfl | hzys
      · exact hxy
      · exact le_trans hxy (hp.1 z hzys)

theorem sortByKickoff_sorted (l : List JSValue)
    (hl : ∀ y ∈ l, (kickKey y).isSome = true) :
    (sortByKickoff l).Pairwise (fun a b => kickKeyD a ≤ kickKeyD b) := by
  induction l with
  | nil => exact List.Pairwise.nil
  | cons x xs ih =>
    unfold sortByKickoff
    have hmem : ∀ y ∈ sortByKickoff xs, (kickKey y).isSome = true := by
      intro y hy
      exact hl y (List.mem_cons_of_mem _ ((sortByKickoff_perm xs).mem_iff.1 hy))
    exact pairwise_insertK x (sortByKickoff xs) (hl x (List.mem_cons_self x xs)) hmem
      (ih (fun y hy => hl y (List.mem_cons_of_mem _ hy)))

theorem fetchAndCache_hit (key : String) (ttl : Int) (fetched : List String)
    (val : Except Unit JSValue) (c : Cache) (now : Int)
    (h : truthy (get c now key) = true) :
    fetchAndCache key ttl fetched val c now = ⟨.ok (get c now key), c, []⟩ := by
  unfold fetchAndCache
  rw [if_pos h]

theorem fetchAndCache_miss_fetched (key : String) (ttl : Int) (fetched : List String)
    (val : Except Unit JSValue) (c : Cache) (now : Int)
    (h : truthy (get c now key) = false) :
    (fetchAndCache key ttl fetched val c now).fetched = fetched := by
  unfold fetchAndCache
  rw [if_neg (by simp [h])]
  cases val <;> rfl

theorem fetchAndCache_miss_response (key : String) (ttl : Int) (fetched : List String)
    (val : Except Unit JSValue) (c : Cache) (now : Int)
    (h : truthy (get c now key) = false) :
    (fetchAndCache key ttl fetched val c now).response = val := by
  unfold fetchAndCache
  rw [if_neg (by simp [h])]
  cases val <;> rfl

theorem fetchAndCache_store (key : String) (ttl : Int) (fetched : List String)
    (val : Except Unit JSValue) (c : Cache) (now : Int) (r : JSValue)
    (h : truthy (get c now key) = false)
    (hr : (fetchAndCache key ttl fetched val c now).response = .ok r) :
    val = .ok r ∧ (fetchAndCache key ttl fetched val c now).cache = put c now key r ttl := by
  have hv : val = .ok r := by rw [← fetchAndCache_miss_response key ttl fetched val c now h, hr]
  subst hv
  refine ⟨rfl, ?_⟩
  unfold fetchAndCache
  rw [if_neg (by simp [h])]

theorem fetchAndCache_error_cache (key : String) (ttl : Int) (fetched : List String)
    (val : Except Unit JSValue) (c : Cache) (now : Int)
    (h : truthy (get c now key) = false) (he : val = .error ()) :
    (fetchAndCache key ttl fetched val c now).cache = c := by
  subst he
  unfold fetchAndCache
  rw [if_neg (by simp [h])]

theorem upcomingLoop_ok (up : String → FetchOutcome) (t : Int)
    (hok : ∀ d, (dayResult (up d)).isOk = true) :
    ∀ (n i : Nat), upcomingLoop up t i n =
      (.ok ((List.range' i n).filterMap (specEntry up t)),
       (List.range' i n).map (fun j : Nat => isoDate (t + (j : Int)))) := by
  intro n
  induction n with
  | zero => intro i; rfl
  | succ m ih =>
    intro i
    have hday := hok (isoDate (t + i))
    cases hd : dayResult (up (isoDate (t + i))) with
    | error e =>
      rw [hd] at hday
      simp [Except.isOk, Except.toBool] at hday
    | ok fs =>
      rw [List.range'_succ, List.filterMap_cons, List.map_cons]
      unfold upcomingLoop
      rw [hd, ih (i + 1)]
      unfold specEntry
      rw [hd]
      cases hfs : fs.isEmpty <;> simp [Except.map, hfs]

theorem fetchAndCache_store_key (key : String) (ttl : Int) (fetched : List String)
    (val : Except Unit JSValue) (c : Cache) (now : Int) (r : JSValue)
    (h : truthy (get c now key) = false)
    (hr : (fetchAndCache key ttl fetched val c now).response = .ok r) :
    (fetchAndCache key ttl fetched val c now).cache key = some ⟨now + ttl, r⟩ := by
  rw [(fetchAndCache_store key ttl fetched val c now r h hr).2]
  unfold put
  simp

theorem todayHandler_hit (up : String → FetchOutcome) (c : Cache) (now : Int)
    (h : truthy (get c now todayKey) = true) :
    todayHandler up c now = ⟨.ok (get c now todayKey), c, []⟩ :=
  fetchAndCache_hit _ _ _ _ _ _ h

theorem todayHandler_miss_fetched (up : String → FetchOutcome) (c : Cache) (now : Int)
    (h : truthy (get c now todayKey) = false) :
    (todayHandler up c now).fetched = [isoDate (Int.ediv now 86400000)] :=
  fetchAndCache_miss_fetched _ _ _ _ _ _ h

theorem todayHandler_store (up : String → FetchOutcome) (c : Cache) (now : Int) (r : JSValue)
    (h : truthy (get c now todayKey) = false)
    (hr : (todayHandler up c now).response = .ok r) :
    (todayHandler up c now).cache todayKey = some ⟨now + 60000, r⟩ :=
  fetchAndCache_store_key _ _ _ _ _ _ _ h hr

theorem liveHandler_hit (up : String → FetchOutcome) (c : Cache) (now : Int)
    (h : truthy (get c now liveKey) = true) :
    liveHandler up c now = ⟨.ok (get c now liveKey), c, []⟩ :=
  fetchAndCache_hit _ _ _ _ _ _ h

theorem liveHandler_miss_fetched (up : String → FetchOutcome) (c : Cache) (now : Int)
    (h : truthy (get c now liveKey) = false) :
    (liveHandler up c now).fetched = ["inplay"] :=
  fetchAndCache_miss_fetched _ _ _ _ _ _ h

theorem liveHandler_store (up : String → FetchOutcome) (c : Cache) (now : Int) (r : JSValue)
    (h : truthy (get c now liveKey) = false)
    (hr : (liveHandler up c now).response = .ok r) :
    (liveHandler up c now).cache liveKey = some ⟨now + 5000, r⟩ :=
  fetchAndCache_store_key _ _ _ _ _ _ _ h hr

theorem dateHandler_hit (up : String → FetchOutcome) (c : Cache) (now : Int) (date : String)
    (h : truthy (get c now (dateKey date)) = true) :
    dateHandler up c now date = ⟨.ok (get c now (dateKey date)), c, []⟩ :=
  fetchAndCache_hit _ _ _ _ _ _ h

theorem dateHandler_miss_fetched (up : String → FetchOutcome) (c : Cache) (now : Int)
    (date : String) (h : truthy (get c now (dateKey date)) = false) :
    (dateHandler up c now date).fetched = [date] :=
  fetchAndCache_miss_fetched _ _ _ _ _ _ h

theorem dateHandler_miss_response (up : String → FetchOutcome) (c : Cache) (now : Int)
    (date : String) (h : truthy (get c now (dateKey date)) = false) :
    (dateHandler up c now date).response =
      (dayResult (up date)).map (fun fixtures => dayEntry date (sortByKickoff fixtures)) :=
  fetchAndCache_miss_response _ _ _ _ _ _ h

theorem dateHandler_store (up : String → FetchOutcome) (c : Cache) (now : Int) (date : String)
    (r : JSValue) (h : truthy (get c now (dateKey date)) = false)
    (hr : (dateHandler up c now date).response = .ok r) :
    (dateHandler up c now date).cache = put c now (dateKey date) r 60000 ∧
      (dayResult (up date)).map (fun fixtures => dayEntry date (sortByKickoff fixtures)) = .ok r :=
  ⟨(fetchAndCache_store _ _ _ _ _ _ _ h hr).2, (fetchAndCache_store _ _ _ _ _ _ _ h hr).1⟩

theorem dateHandler_store_key (up : String → FetchOutcome) (c : Cache) (now : Int) (date : String)
    (r : JSValue) (h : truthy (get c now (dateKey date)) = false)
    (hr : (dateHandler up c now date).response = .ok r) :
    (dateHandler up c now date).cache (dateKey date) = some ⟨now + 60000, r⟩ :=
  fetchAndCache_store_key _ _ _ _ _ _ _ h hr

theorem tomorrowHandler_hit (up : String → FetchOutcome) (c : Cache) (now : Int)
    (h : truthy (get c now tomorrowKey) = true) :
    tomorrowHandler up c now = ⟨.ok (get c now tomorrowKey), c, []⟩ :=
  fetchAndCache_hit _ _ _ _ _ _ h

theorem tomorrowHandler_miss_fetched (up : String → FetchOutcome) (c : Cache) (now : Int)
    (h : truthy (get c now tomorrowKey) = false) :
    (tomorrowHandler up c now).fetched = [isoDate (Int.ediv now 86400000 + 1)] :=
  fetchAndCache_miss_fetched _ _ _ _ _ _ h

theorem tomorrowHandler_store (up : String → FetchOutcome) (c : Cache) (now : Int) (r : JSValue)
    (h : truthy (get c now tomorrowKey) = false)
    (hr : (tomorrowHandler up c now).response = .ok r) :
    (tomorrowHandler up c now).cache tomorrowKey = some ⟨now + 60000, r⟩ :=
  fetchAndCache_store_key _ _ _ _ _ _ _ h hr

theorem upcomingHandler_hit (up : String → FetchOutcome) (c : Cache) (now : Int) (q : JSValue)
    (h : truthy (get c now ("fixtures:upcoming:" ++ daysStr (clampDays q))) = true) :
    upcomingHandler up c now q =
      ⟨.ok (get c now ("fixtures:upcoming:" ++ daysStr (clampDays q))), c, []⟩ :=
  fetchAndCache_hit _ _ _ _ _ _ h

theorem upcomingHandler_miss_fetched (up : String → FetchOutcome) (c : Cache) (now : Int)
    (q : JSValue) (h : truthy (get c now ("fixtures:upcoming:" ++ daysStr (clampDays q))) = false) :
    (upcomingHandler up c now q).fetched =
      (upcomingLoop up (Int.ediv now 86400000) 0 (daysToNat (clampDays q))).2 :=
  fetchAndCache_miss_fetched _ _ _ _ _ _ h

theorem upcomingHandler_miss_response (up : String → FetchOutcome) (c : Cache) (now : Int)
    (q : JSValue) (h : truthy (get c now ("fixtures:upcoming:" ++ daysStr (clampDays q))) = false) :
    (upcomingHandler up c now q).response =
      (upcomingLoop up (Int.ediv now 86400000) 0 (daysToNat (clampDays q))).1.map
        (fun entries => vObj [("days", daysJS (clampDays q)), ("schedule", vArr entries)]) :=
  fetchAndCache_miss_response _ _ _ _ _ _ h

theorem upcomingHandler_store (up : String → FetchOutcome) (c : Cache) (now : Int) (q : JSValue)
    (r : JSValue) (h : truthy (get c now ("fixtures:upcoming:" ++ daysStr (clampDays q))) = false)
    (hr : (upcomingHandler up c now q).response = .ok r) :
    (upcomingHandler up c now q).cache ("fixtures:upcoming:" ++ daysStr (clampDays q)) =
      some ⟨now + 60000, r⟩ :=
  fetchAndCache_store_key _ _ _ _ _ _ _ h hr

theorem matchHandler_hit (up : String → FetchOutcome) (c : Cache) (now : Int) (id : String)
    (h : truthy (get c now (matchKey id)) = true) :
    matchHandler up c now id = ⟨.ok (get c now (matchKey id)), c, []⟩ :=
  fetchAndCache_hit _ _ _ _ _ _ h

theorem matchHandler_miss_fetched (up : String → FetchOutcome) (c : Cache) (now : Int)
    (id : String) (h : truthy (get c now (matchKey id)) = false) :
    (matchHandler up c now id).fetched = [id] :=
  fetchAndCache_miss_fetched _ _ _ _ _ _ h

theorem matchHandler_store (up : String → FetchOutcome) (c : Cache) (now : Int) (id : String)
    (r : JSValue) (h : truthy (get c now (matchKey id)) = false)
    (hr : (matchHandler up c now id).response = .ok r) :
    (matchHandler up c now id).cache (matchKey id) = some ⟨now + 3000, r⟩ :=
  fetchAndCache_store_key _ _ _ _ _ _ _ h hr

theorem clampDays_ge_one (q : JSValue) (n : Rat) (h : clampDays q = some n) : 1 ≤ n := by
  unfold clampDays at h
  cases hm : toNumber (jsNN q (vNum 7)) with
  | nan => rw [hm] at h; simp at h
  | inf b =>
    rw [hm] at h
    cases b with
    | false =>
      have h2 : (1 : Rat) = n := Option.some.inj h
      rw [← h2]
    | true =>
      have h2 : (14 : Rat) = n := Option.some.inj h
      rw [← h2]
      decide
  | finite x =>
    rw [hm] at h
    have h2 : max 1 (min 14 x) = n := Option.some.inj h
    rw [← h2]
    exact le_max_left 1 (min 14 x)

theorem one_le_ceil_toNat (n : Rat) (h : 1 ≤ n) : 1 ≤ n.ceil.toNat := by
  have h1 : (1 : Int) ≤ Rat.floor n := Rat.le_floor.2 (by exact_mod_cast h)
  have h2 : Rat.floor n ≤ n.ceil := by
    unfold Rat.floor Rat.ceil
    by_cases hd : n.den = 1
    · simp [hd]
    · simp only [hd, if_false]
      generalize n.num / (n.den : Int) = a
      omega
  omega

theorem upcomingLoop_fetched_cons (up : String → FetchOutcome) (t : Int) (i m : Nat) :
    (upcomingLoop up t i (m + 1)).2 ≠ [] := by
  unfold upcomingLoop
  cases dayResult (up (isoDate (t + i))) <;> simp

/-! ## Claim theorems -/

/-- Claim C2: after put(key, value, ttl_ms) at time t0, get(key) at time t
returns the stored value exactly when t is strictly below the expiry
t0 + ttl_ms, and behaves as absent (the null sentinel) otherwise; put
unconditionally replaces the entry for the key - the new entry is installed
whatever was there - and leaves every other key untouched, so the cache
holds at most one entry per key. -/
theorem C2_cache_ttl_contract (c : Cache) (k : String) (v : JSValue) (ttl t0 t : Int) :
    (t < t0 + ttl → get (put c t0 k v ttl) t k = v) ∧
    (¬ t < t0 + ttl → get (put c t0 k v ttl) t k = vNull) ∧
    put c t0 k v ttl k = some ⟨t0 + ttl, v⟩ ∧
    (∀ k', k' ≠ k → put c t0 k v ttl k' = c k') := by
  refine ⟨?_, ?_, ?_, ?_⟩
  · intro h
    rw [get_put_self, if_pos (by omega)]
  · intro h
    rw [get_put_self, if_neg (by omega)]
  · unfold put
    simp
  · intro k' hk
    unfold put
    simp [hk]

/-- Witness for C2: a fresh 60 s entry is served at 59999 ms and gone at
60000 ms. -/
theorem C2_cache_ttl_contract_witness :
    get (put emptyCache 0 "k" (vStr "x") 60000) 59999 "k" = vStr "x" ∧
    get (put emptyCache 0 "k" (vStr "x") 60000) 60000 "k" = vNull :=
  ⟨(C2_cache_ttl_contract emptyCache "k" (vStr "x") 60000 0 59999).1 (by decide),
   (C2_cache_ttl_contract emptyCache "k" (vStr "x") 60000 0 60000).2.1 (by decide)⟩

/-- Claim C10 counterexample: a live cache entry storing the falsy value
false is returned by get as false itself, not as the null sentinel the
claim asserts get returns for falsy stored values. -/
theorem C10_falsy_sentinel_counterexample :
    get (put emptyCache 0 "k" (vBool false) 60000) 1 "k" = vBool false ∧
    vBool false ≠ vNull :=
  ⟨rfl, fun h => nomatch h⟩

/-- Claim C10 (amended): get returns the null sentinel for a missing or
expired entry but returns the stored value itself - even a falsy one - for
a live entry; nevertheless every handler tests the result of get for
truthiness, so a stored falsy value never produces a cache hit: after
putting any falsy value the guard stays false, and on any falsy get result
each of the six handlers proceeds to fetch upstream again. -/
theorem C10_falsy_never_hits :
    (∀ c now k, c k = none → get c now k = vNull) ∧
    (∀ c now k e, c k = some e → ¬ now < e.exp → get c now k = vNull) ∧
    (∀ c now k e, c k = some e → now < e.exp → get c now k = e.data) ∧
    (∀ v, truthy v = false →
      ∀ c t0 now k ttl, truthy (get (put c t0 k v ttl) now k) = false) ∧
    (∀ up c now d, truthy (get c now (dateKey d)) = false →
      (dateHandler up c now d).fetched = [d]) ∧
    (∀ up c now, truthy (get c now todayKey) = false →
      (todayHandler up c now).fetched = [isoDate (Int.ediv now 86400000)]) ∧
    (∀ up c now, truthy (get c now liveKey) = false →
      (liveHandler up c now).fetched = ["inplay"]) ∧
    (∀ up c now, truthy (get c now tomorrowKey) = false →
      (tomorrowHandler up c now).fetched = [isoDate (Int.ediv now 86400000 + 1)]) ∧
    (∀ up c now id, truthy (get c now (matchKey id)) = false →
      (matchHandler up c now id).fetched = [id]) ∧
    (∀ up c now q n, clampDays q = some n →
      truthy (get c now ("fixtures:upcoming:" ++ daysStr (clampDays q))) = false →
      (upcomingHandler up c now q).fetched ≠ []) := by
  refine ⟨?_, ?_, ?_, ?_, ?_, ?_, ?_, ?_, ?_, ?_⟩
  · intro c now k h
    unfold G4A.get
    rw [h]
  · intro c now k e h hexp
    unfold G4A.get
    rw [h]
    simp only [gt_iff_lt]
    rw [if_neg hexp]
  · intro c now k e h hexp
    unfold G4A.get
    rw [h]
    simp only [gt_iff_lt]
    rw [if_pos hexp]
  · intro v hv c t0 now k ttl
    rw [get_put_self]
    by_cases h : t0 + ttl > now
    · rw [if_pos h]
      exact hv
    · rw [if_neg h]
      rfl
  · exact fun up c now d h => dateHandler_miss_fetched up c now d h
  · exact fun up c now h => todayHandler_miss_fetched up c now h
  · exact fun up c now h => liveHandler_miss_fetched up c now h
  · exact fun up c now h => tomorrowHandler_miss_fetched up c now h
  · exact fun up c now id h => matchHandler_miss_fetched up c now id h
  · intro up c now q n hclamp h
    rw [upcomingHandler_miss_fetched up c now q h, hclamp]
    have hceil := one_le_ceil_toNat n (clampDays_ge_one q n hclamp)
    cases hnat : n.ceil.toNat with
    | zero => omega
    | succ m =>
      show (upcomingLoop up (Int.ediv now 86400000) 0 n.ceil.toNat).2 ≠ []
      rw [hnat]
      exact upcomingLoop_fetched_cons up (Int.ediv now 86400000) 0 m

/-- Witness for C10: a stored false value leaves the truthiness guard
false, and the date handler refetches on a falsy cached value. -/
theorem C10_falsy_never_hits_witness :
    truthy (get (put emptyCache 0 "k" (vBool false) 60000) 1 "k") = false ∧
    (dateHandler upOkEmpty
      (put emptyCache 0 (dateKey "2025-08-27") (vBool false) 60000) 1 "2025-08-27").fetched
      = ["2025-08-27"] :=
  ⟨C10_falsy_never_hits.2.2.2.1 (vBool false) rfl emptyCache 0 1 "k" 60000,
   C10_falsy_never_hits.2.2.2.2.1 upOkEmpty
     (put emptyCache 0 (dateKey "2025-08-27") (vBool false) 60000) 1 "2025-08-27" rfl⟩

/-- Claim C3 counterexample: a CURRENT home record whose goals value is the
non-numeric string "abc" yields NaN for the home tally, not the 0 the claim
asserts non-numeric goals coerce to. -/
theorem C3_nonnumeric_goals_counterexample :
    currentScore abcScores = (vNaN, vNum 0) ∧ vNaN ≠ vNum 0 :=
  ⟨rfl, fun h => nomatch h⟩

/-- Claim C3 (amended): the extractor considers only records whose
description equals exactly CURRENT, and among those the last home-tagged
and last away-tagged records in scan order determine the result (proved as
equality with the filter/getLast specification reading); it returns 0-0
when the input is absent, not an array, empty, or has no CURRENT record;
missing (nullish) goals coerce to 0 through the nullish default, but a
non-numeric goals string yields NaN rather than 0. -/
theorem C3_score_extractor :
    (∀ xs, currentScore (vArr xs) =
      (lastSideGoal "home" xs (vNum 0), lastSideGoal "away" xs (vNum 0))) ∧
    (∀ v, (∀ ys, v ≠ vArr ys) → currentScore v = (vNum 0, vNum 0)) ∧
    (∀ s, getOpt (getOpt s "score") "goals" = vNull → goalsNum s = vNum 0) ∧
    currentScore specExampleScores = (vNum 2, vNum 1) ∧
    currentScore (vArr []) = (vNum 0, vNum 0) ∧
    currentScore vNull = (vNum 0, vNum 0) ∧
    currentScore abcScores = (vNaN, vNum 0) := by
  refine ⟨?_, ?_, ?_, rfl, rfl, rfl, rfl⟩
  · intro xs
    unfold currentScore
    exact scoreLoop_eq_lastSideGoal xs (vNum 0) (vNum 0)
  · intro v hv
    cases v with
    | vArr ys => exact absurd rfl (hv ys)
    | vNull => rfl
    | vBool b => rfl
    | vNum n => rfl
    | vNaN => rfl
    | vInf b => rfl
    | vStr s => rfl
    | vObj fs => rfl
  · intro s h
    unfold goalsNum
    rw [h]
    rfl

/-- Witness for C3: the extractor is 0-0 on a non-array input, and nullish
goals count as 0. -/
theorem C3_score_extractor_witness :
    currentScore (vStr "nope") = (vNum 0, vNum 0) ∧
    goalsNum (vObj [("description", vStr "CURRENT"),
      ("score", vObj [("participant", vStr "home")])]) = vNum 0 :=
  ⟨C3_score_extractor.2.1 (vStr "nope") (fun _ h => nomatch h),
   C3_score_extractor.2.2.1 (vObj [("description", vStr "CURRENT"),
     ("score", vObj [("participant", vStr "home")])]) rfl⟩

/-- Claim C4 counterexample: a fixture whose participants field is the
truthy non-array number 1 makes mapFixture call .find on a non-array value,
which throws a TypeError - the normalizer can throw on a malformed
RawFixture, contrary to the claim. -/
theorem C4_throws_counterexample :
    mapFixture (vObj [("participants", vNum 1)]) = .error () := rfl

/-- Claim C4 (amended): for every input whose participants field, when
truthy, is an array and whose starting_at field, when truthy, is a string -
which includes absent input and fixtures missing participants, scores or
starting_at entirely - the normalizer returns a CanonicalFixture without
throwing, emitting placeholder team objects with null fields when no home
or away participant is found and null kickoff fields when starting_at is
absent; a truthy non-array participants value or a truthy non-string
starting_at value, however, throws a TypeError. -/
theorem C4_normalizer_defensive :
    (∀ fx, goodFixture fx = true → (mapFixture fx).isOk = true) ∧
    mapFixture vNull = .ok (vObj [("id", vNull), ("league_id", vNull), ("league_name", vNull),
      ("state_id", vNull), ("kickoff_utc", vNull), ("kickoff_bahrain", vNull),
      ("home", vObj [("id", vNull), ("name", vNull), ("code", vNull), ("logo", vNull)]),
      ("away", vObj [("id", vNull), ("name", vNull), ("code", vNull), ("logo", vNull)]),
      ("score_home", vNum 0), ("score_away", vNum 0)]) ∧
    mapFixture (vObj [("id", vNum 7)]) = .ok (vObj [("id", vNum 7), ("league_id", vNull),
      ("league_name", vNull), ("state_id", vNull), ("kickoff_utc", vNull),
      ("kickoff_bahrain", vNull),
      ("home", vObj [("id", vNull), ("name", vNull), ("code", vNull), ("logo", vNull)]),
      ("away", vObj [("id", vNull), ("name", vNull), ("code", vNull), ("logo", vNull)]),
      ("score_home", vNum 0), ("score_away", vNum 0)]) ∧
    mapFixture (vObj [("starting_at", vNum 5)]) = .error () := by
  refine ⟨?_, rfl, rfl, rfl⟩
  intro fx hg
  unfold goodFixture at hg
  rw [Bool.and_eq_true] at hg
  cases hp : jsOr (getOpt fx "participants") (vArr []) with
  | vArr parts =>
    cases hsa : getOpt fx "starting_at" with
    | vStr s =>
      cases htr : truthy (vStr s) with
      | false => simp [mapFixture, Except.isOk, Except.toBool, hp, hsa, htr]
      | true => simp [mapFixture, Except.isOk, Except.toBool, hp, hsa, htr]
    | vNull => simp [mapFixture, Except.isOk, Except.toBool, hp, hsa, truthy]
    | vBool b =>
      rw [hsa] at hg
      have hb := hg.2
      simp [truthy] at hb
      simp [mapFixture, Except.isOk, Except.toBool, hp, hsa, truthy, hb]
    | vNum n =>
      rw [hsa] at hg
      have hb := hg.2
      simp [truthy] at hb
      simp [mapFixture, Except.isOk, Except.toBool, hp, hsa, truthy, hb]
    | vNaN => simp [mapFixture, Except.isOk, Except.toBool, hp, hsa, truthy]
    | vInf b =>
      rw [hsa] at hg
      have hb := hg.2
      simp [truthy] at hb
    | vArr a =>
      rw [hsa] at hg
      have hb := hg.2
      simp [truthy] at hb
    | vObj o =>
      rw [hsa] at hg
      have hb := hg.2
      simp [truthy] at hb
  | vNull => rw [hp] at hg; simp at hg
  | vBool b => rw [hp] at hg; simp at hg
  | vNum n => rw [hp] at hg; simp at hg
  | vNaN => rw [hp] at hg; simp at hg
  | vInf b => rw [hp] at hg; simp at hg
  | vStr s => rw [hp] at hg; simp at hg
  | vObj o => rw [hp] at hg; simp at hg

/-- Witness for C4: the normalizer succeeds on the empty object (no
participants, no scores, no starting_at). -/
theorem C4_normalizer_defensive_witness : (mapFixture (vObj [])).isOk = true :=
  C4_normalizer_defensive.1 (vObj []) rfl

/-- Claim C5 counterexample: a fixture with the pre-epoch kickoff
1969-12-31T00:00:00Z sorts before a null-kickoff fixture (whose key is
epoch time zero), so null-kickoff fixtures do not sort first in every
sequence. -/
theorem C5_preepoch_counterexample :
    sortByKickoff [fx1969, fxNullKick] = [fx1969, fxNullKick] ∧
    getOpt fxNullKick "kickoff_utc" = vNull ∧
    getOpt fx1969 "kickoff_utc" ≠ vNull :=
  ⟨rfl, rfl, fun h => nomatch h⟩

/-- Claim C5 (amended): sortByKickoff permutes its input and, whenever all
comparator keys are valid timestamps, sorts it ascending by key; a null or
missing kickoff_utc keys as epoch time zero, hence such fixtures sort first
whenever the remaining kickoffs are at or after the epoch (every real
kickoff) - though a pre-epoch kickoff precedes them - and the
specification's example [18:00, null, 12:00] sorts to [null, 12:00, 18:00]. -/
theorem C5_kickoff_order :
    (∀ l, (sortByKickoff l).Perm l) ∧
    (∀ l, (∀ y ∈ l, (kickKey y).isSome = true) →
      (sortByKickoff l).Pairwise (fun a b => kickKeyD a ≤ kickKeyD b)) ∧
    (∀ v, getOpt v "kickoff_utc" = vNull → kickKey v = some 0) ∧
    (∀ l, (∀ y ∈ l, (kickKey y).isSome = true) → (∀ y ∈ l, 0 ≤ kickKeyD y) →
      (sortByKickoff l).Pairwise
        (fun a b => getOpt b "kickoff_utc" = vNull → kickKeyD a = 0)) ∧
    sortByKickoff [fx18, fxNullKick, fx12] = [fxNullKick, fx12, fx18] := by
  refine ⟨sortByKickoff_perm, sortByKickoff_sorted, ?_, ?_, rfl⟩
  · intro v h
    unfold kickKey
    rw [h]
    rfl
  · intro l hvalid hnonneg
    have hs := sortByKickoff_sorted l hvalid
    refine List.Pairwise.imp_of_mem ?_ hs
    intro a b ha hb hle hbnull
    have hbkey : kickKey b = some 0 := by
      unfold kickKey
      rw [hbnull]
      rfl
    have hb0 : kickKeyD b = 0 := by
      unfold kickKeyD
      rw [hbkey]
      rfl
    have ha0 : 0 ≤ kickKeyD a :=
      hnonneg a ((sortByKickoff_perm l).mem_iff.1 ha)
    omega

/-- Witness for C5: the null-kickoff fixture keys as time zero, and the
two-element valid list sorts pairwise ascending. -/
theorem C5_kickoff_order_witness :
    kickKey fxNullKick = some 0 ∧
    (sortByKickoff [fx18, fx12]).Pairwise (fun a b => kickKeyD a ≤ kickKeyD b) :=
  ⟨C5_kickoff_order.2.2.1 fxNullKick rfl,
   C5_kickoff_order.2.1 [fx18, fx12] (by
     intro y hy
     simp only [List.mem_cons, List.not_mem_nil, or_false] at hy
     rcases hy with rfl | rfl
     · rfl
     · rfl)⟩

/-- Claim C1: for the fixtures-by-date endpoint, a first successful request
at t1 (cache miss) performs exactly one upstream fetch and caches the
assembled response; an identical request at any t2 strictly within the 60 s
TTL is a cache hit - no fetch, the same response, the cache unchanged - and
a request at any t3 at or after expiry misses and fetches upstream again.
In general, every handler checks the cache first: on a truthy hit it
returns the cached value with no fetch and no cache change, and on a miss
that succeeds it stores the response it returns under its key with its
TTL. -/
theorem C1_cache_before_fetch :
    (∀ up c0 t1 t2 t3 date r,
      truthy (get c0 t1 (dateKey date)) = false →
      (dateHandler up c0 t1 date).response = .ok r →
      t2 < t1 + 60000 →
      t1 + 60000 ≤ t3 →
      (dateHandler up c0 t1 date).fetched = [date] ∧
      (dateHandler up (dateHandler up c0 t1 date).cache t2 date).fetched = [] ∧
      (dateHandler up (dateHandler up c0 t1 date).cache t2 date).response = .ok r ∧
      (dateHandler up (dateHandler up c0 t1 date).cache t2 date).cache
        = (dateHandler up c0 t1 date).cache ∧
      (dateHandler up (dateHandler up c0 t1 date).cache t3 date).fetched = [date]) ∧
    (∀ up c now date, truthy (get c now (dateKey date)) = true →
      dateHandler up c now date = ⟨.ok (get c now (dateKey date)), c, []⟩) ∧
    (∀ up c now, truthy (get c now todayKey) = true →
      todayHandler up c now = ⟨.ok (get c now todayKey), c, []⟩) ∧
    (∀ up c now, truthy (get c now liveKey) = true →
      liveHandler up c now = ⟨.ok (get c now liveKey), c, []⟩) ∧
    (∀ up c now, truthy (get c now tomorrowKey) = true →
      tomorrowHandler up c now = ⟨.ok (get c now tomorrowKey), c, []⟩) ∧
    (∀ up c now q,
      truthy (get c now ("fixtures:upcoming:" ++ daysStr (clampDays q))) = true →
      upcomingHandler up c now q =
        ⟨.ok (get c now ("fixtures:upcoming:" ++ daysStr (clampDays q))), c, []⟩) ∧
    (∀ up c now id, truthy (get c now (matchKey id)) = true →
      matchHandler up c now id = ⟨.ok (get c now (matchKey id)), c, []⟩) ∧
    (∀ up c now date r, truthy (get c now (dateKey date)) = false →
      (dateHandler up c now date).response = .ok r →
      (dateHandler up c now date).cache (dateKey date) = some ⟨now + 60000, r⟩) ∧
    (∀ up c now r, truthy (get c now todayKey) = false →
      (todayHandler up c now).response = .ok r →
      (todayHandler up c now).cache todayKey = some ⟨now + 60000, r⟩) ∧
    (∀ up c now r, truthy (get c now liveKey) = false →
      (liveHandler up c now).response = .ok r →
      (liveHandler up c now).cache liveKey = some ⟨now + 5000, r⟩) ∧
    (∀ up c now r, truthy (get c now tomorrowKey) = false →
      (tomorrowHandler up c now).response = .ok r →
      (tomorrowHandler up c now).cache tomorrowKey = some ⟨now + 60000, r⟩) ∧
    (∀ up c now q r,
      truthy (get c now ("fixtures:upcoming:" ++ daysStr (clampDays q))) = false →
      (upcomingHandler up c now q).response = .ok r →
      (upcomingHandler up c now q).cache ("fixtures:upcoming:" ++ daysStr (clampDays q)) =
        some ⟨now + 60000, r⟩) ∧
    (∀ up c now id r, truthy (get c now (matchKey id)) = false →
      (matchHandler up c now id).response = .ok r →
      (matchHandler up c now id).cache (matchKey id) = some ⟨now + 3000, r⟩) := by
  refine ⟨?_, dateHandler_hit, todayHandler_hit, liveHandler_hit, tomorrowHandler_hit,
    upcomingHandler_hit, matchHandler_hit, dateHandler_store_key, todayHandler_store,
    liveHandler_store, tomorrowHandler_store, upcomingHandler_store, matchHandler_store⟩
  intro up c0 t1 t2 t3 date r h0 hok h2 h3
  obtain ⟨hcache, hval⟩ := dateHandler_store up c0 t1 date r h0 hok
  have htr : truthy r = true := by
    cases hd : dayResult (up date) with
    | error e => rw [hd] at hval; simp [Except.map] at hval
    | ok fs =>
      rw [hd] at hval
      simp only [Except.map] at hval
      injection hval with hval
      rw [← hval]
      rfl
  have hg2 : get (dateHandler up c0 t1 date).cache t2 (dateKey date) = r := by
    rw [hcache, get_put_self, if_pos (by omega)]
  have hg3 : get (dateHandler up c0 t1 date).cache t3 (dateKey date) = vNull := by
    rw [hcache, get_put_self, if_neg (by omega)]
  have ht2 : truthy (get (dateHandler up c0 t1 date).cache t2 (dateKey date)) = true := by
    rw [hg2]
    exact htr
  have ht3 : truthy (get (dateHandler up c0 t1 date).cache t3 (dateKey date)) = false := by
    rw [hg3]
    rfl
  have hhit := dateHandler_hit up (dateHandler up c0 t1 date).cache t2 date ht2
  refine ⟨dateHandler_miss_fetched up c0 t1 date h0, ?_, ?_, ?_,
    dateHandler_miss_fetched up (dateHandler up c0 t1 date).cache t3 date ht3⟩
  · rw [hhit]
  · rw [hhit, hg2]
  · rw [hhit]

/-- Witness for C1: with an upstream returning an empty day, a run at 0 ms
fetches once, a second run at 59999 ms is a hit with no fetch, and a third
run at 60000 ms fetches again. -/
theorem C1_cache_before_fetch_witness :
    (dateHandler upOkEmpty emptyCache 0 "2025-08-27").fetched = ["2025-08-27"] ∧
    (dateHandler upOkEmpty (dateHandler upOkEmpty emptyCache 0 "2025-08-27").cache
      59999 "2025-08-27").fetched = [] ∧
    (dateHandler upOkEmpty (dateHandler upOkEmpty emptyCache 0 "2025-08-27").cache
      60000 "2025-08-27").fetched = ["2025-08-27"] :=
  have h := C1_cache_before_fetch.1 upOkEmpty emptyCache 0 59999 60000 "2025-08-27"
    (dayEntry "2025-08-27" []) rfl rfl (by decide) (by decide)
  ⟨h.1, h.2.1, h.2.2.2.2⟩

/-- Claim C6 counterexample: for the days parameter value "abc" the day
count is not clamp(requested, 1, 14): Number gives NaN, the loop runs zero
times, no upstream fetch happens and the response reports days NaN with an
empty schedule - not the at-least-one inclusive day the claim requires for
every parameter value. -/
theorem C6_nan_days_counterexample :
    (upcomingHandler upOkEmpty emptyCache 0 (vStr "abc")).fetched = [] ∧
    (upcomingHandler upOkEmpty emptyCache 0 (vStr "abc")).response
      = .ok (vObj [("days", vNaN), ("schedule", vArr [])]) :=
  ⟨rfl, rfl⟩

/-- Claim C6 (amended): the upcoming endpoint converts the days parameter
with Number (7 when unspecified) and clamps the result into [1, 14] via
Math.max/Math.min: days 0 behaves exactly as days 1, days 99 exactly as
days 14, an absent parameter exactly as days 7 and days Infinity exactly
as days 14 (the whole handler result coincides), with exponent and hex
numerals converted to their values; on a miss with a fully successful
upstream the aggregation fetches exactly ceil(clamped) consecutive UTC
calendar days starting from today - which is clamp(requested, 1, 14)
itself for every integer request, and e.g. three days for the fractional
days=2.5; a days value whose conversion is NaN (such as "abc"), however,
is not clamped: zero days are iterated and the response reports days
NaN. -/
theorem C6_upcoming_clamp :
    (∀ up c now, upcomingHandler up c now (vNum 0) = upcomingHandler up c now (vNum 1)) ∧
    (∀ up c now, upcomingHandler up c now (vNum 99) = upcomingHandler up c now (vNum 14)) ∧
    (∀ up c now, upcomingHandler up c now vNull = upcomingHandler up c now (vNum 7)) ∧
    (∀ up c now,
      upcomingHandler up c now (vStr "Infinity") = upcomingHandler up c now (vNum 14)) ∧
    toNumber (vStr "1e2") = .finite 100 ∧
    toNumber (vStr "0x10") = .finite 16 ∧
    toNumber (vStr "2.5") = .finite (mkRat 5 2) ∧
    toNumber (vStr "abc") = .nan ∧
    (∀ q x, toNumber (jsNN q (vNum 7)) = .finite x →
      clampDays q = some (max 1 (min 14 x))) ∧
    (∀ up c now q x, clampDays q = some x →
      truthy (get c now ("fixtures:upcoming:" ++ daysStr (clampDays q))) = false →
      (∀ d, (dayResult (up d)).isOk = true) →
      (upcomingHandler up c now q).fetched =
        (List.range' 0 x.ceil.toNat).map
          (fun j : Nat => isoDate (Int.ediv now 86400000 + (j : Int)))) ∧
    (∀ up c now q, toNumber (jsNN q (vNum 7)) = .nan →
      truthy (get c now "fixtures:upcoming:NaN") = false →
      (upcomingHandler up c now q).fetched = []) ∧
    (upcomingHandler upOkEmpty emptyCache 0 (vStr "2.5")).fetched =
      ["1970-01-01", "1970-01-02", "1970-01-03"] := by
  refine ⟨fun up c now => rfl, fun up c now => rfl, fun up c now => rfl, fun up c now => rfl,
    rfl, rfl, rfl, rfl, ?_, ?_, ?_, rfl⟩
  · intro q x h
    unfold clampDays
    rw [h]
  · intro up c now q x hclamp hmiss hok
    rw [upcomingHandler_miss_fetched up c now q hmiss]
    rw [upcomingLoop_ok up (Int.ediv now 86400000) hok (daysToNat (clampDays q)) 0]
    rw [hclamp]
    rfl
  · intro up c now q h hm
    have hclamp : clampDays q = none := by
      unfold clampDays
      rw [h]
    have hmiss : truthy (get c now ("fixtures:upcoming:" ++ daysStr (clampDays q))) = false := by
      rw [hclamp]
      exact hm
    rw [upcomingHandler_miss_fetched up c now q hmiss, hclamp]
    rfl

/-- Witness for C6: days=3 on a miss with an all-successful upstream
fetches exactly the three consecutive days starting from today. -/
theorem C6_upcoming_clamp_witness :
    (upcomingHandler upOkEmpty emptyCache 0 (vNum 3)).fetched =
      (List.range' 0 (3 : Rat).ceil.toNat).map
        (fun j : Nat => isoDate (Int.ediv 0 86400000 + (j : Int))) :=
  C6_upcoming_clamp.2.2.2.2.2.2.2.2.2.1 upOkEmpty emptyCache 0 (vNum 3) 3 rfl rfl (fun _ => rfl)

/-- Claim C7: on a cache miss with every upstream day succeeding, the
upcoming response's schedule is exactly the chronological filterMap keeping
only days with a nonempty fixture list - a day whose fetch succeeds with
zero fixtures contributes nothing - and its length is at most the day
count. -/
theorem C7_upcoming_omission (up : String → FetchOutcome) (c : Cache) (now : Int)
    (q : JSValue) (n : Rat) (hclamp : clampDays q = some n)
    (hmiss : truthy (get c now ("fixtures:upcoming:" ++ daysStr (clampDays q))) = false)
    (hok : ∀ d, (dayResult (up d)).isOk = true) :
    (upcomingHandler up c now q).response =
      .ok (vObj [("days", vNum n),
        ("schedule", vArr (specSchedule up (Int.ediv now 86400000) n.ceil.toNat))]) ∧
    (specSchedule up (Int.ediv now 86400000) n.ceil.toNat).length ≤ n.ceil.toNat := by
  constructor
  · rw [upcomingHandler_miss_response up c now q hmiss]
    rw [upcomingLoop_ok up (Int.ediv now 86400000) hok (daysToNat (clampDays q)) 0]
    rw [hclamp]
    rfl
  · unfold specSchedule
    calc ((List.range' 0 n.ceil.toNat).filterMap
            (specEntry up (Int.ediv now 86400000))).length
        ≤ (List.range' 0 n.ceil.toNat).length :=
          List.length_filterMap_le (specEntry up (Int.ediv now 86400000))
            (List.range' 0 n.ceil.toNat)
      _ = n.ceil.toNat := by simp

/-- Witness for C7: two days, the first with zero fixtures, the second with
one: the schedule equals the spec-side filterMap (which keeps only the
second day). -/
theorem C7_upcoming_omission_witness :
    (upcomingHandler upOneDay emptyCache 0 (vNum 2)).response =
      .ok (vObj [("days", vNum 2),
        ("schedule", vArr (specSchedule upOneDay (Int.ediv 0 86400000) (2 : Rat).ceil.toNat))]) :=
  (C7_upcoming_omission upOneDay emptyCache 0 (vNum 2) 2 rfl rfl (fun d => by
    unfold upOneDay
    by_cases h : d = "1970-01-02"
    · rw [if_pos h]
      rfl
    · rw [if_neg h]
      rfl)).1

/-- Claim C8 states the intended upstream-error contract, but the code
violates it in the non-success-status case: undici request() resolves on
any HTTP status and the handlers never inspect res.statusCode, so an
upstream 500 reply with a parseable JSON error body (no data field) is
treated as a successful day with zero fixtures - the today handler returns
an ok response with an empty fixture list and caches it for 60 s, instead
of failing the request and leaving the cache unchanged.  (A rejected fetch
or a malformed JSON body does throw, which fails the request and skips the
put, and in the upcoming loop aborts the whole aggregation.) -/
theorem C8_error_status_cached :
    (todayHandler err500 emptyCache 0).response
      = .ok (vObj [("date_utc", vStr "1970-01-01"), ("fixtures", vArr [])]) ∧
    (todayHandler err500 emptyCache 0).cache todayKey
      = some ⟨60000, vObj [("date_utc", vStr "1970-01-01"), ("fixtures", vArr [])]⟩ :=
  ⟨rfl, rfl⟩

/-- Claim C9 counterexample: the date endpoint does not reject a
non-conforming date path parameter: on a cache miss it issues the upstream
fetch carrying the garbage string verbatim and returns an assembled ok
response. -/
theorem C9_no_validation_counterexample :
    (dateHandler upOkEmpty emptyCache 0 "not-a-date").fetched = ["not-a-date"] ∧
    (dateHandler upOkEmpty emptyCache 0 "not-a-date").response
      = .ok (dayEntry "not-a-date" []) :=
  ⟨rfl, rfl⟩

/-- Claim C9 (amended): the endpoint performs no date-format validation:
for every date string - conforming or not - a cache miss issues exactly one
upstream fetch carrying that string verbatim, and the response is entirely
determined by the upstream pipeline (no client-error rejection path
exists). -/
theorem C9_no_validation (up : String → FetchOutcome) (c : Cache) (now : Int) (date : String)
    (h : truthy (get c now (dateKey date)) = false) :
    (dateHandler up c now date).fetched = [date] ∧
    (dateHandler up c now date).response =
      (dayResult (up date)).map (fun fixtures => dayEntry date (sortByKickoff fixtures)) :=
  ⟨dateHandler_miss_fetched up c now date h, dateHandler_miss_response up c now date h⟩

/-- Witness for C9: a garbage date string is fetched verbatim. -/
theorem C9_no_validation_witness :
    (dateHandler upOkEmpty emptyCache 0 "2025-99-99garbage").fetched = ["2025-99-99garbage"] :=
  (C9_no_validation upOkEmpty emptyCache 0 "2025-99-99garbage" rfl).1

end G4A
